import Mathlib

/-!
Verification of the request-serving host (`wasmtime serve`): a shallow
embedding of `src/commands/serve.rs` — the request-to-sandbox lifecycle,
epoch-based deadline enforcement, captured-output streams, the allocator
viability probe, startup validation, and the response handoff — together
with theorems settling the specification's claims about it.

Byte strings are modelled as `List Nat`; machine integers as `Nat` with
explicit `% 2^64` where wraparound matters; fallible Rust functions as
`Except`. Steps performed by external crates (engine creation, component
loading, instantiation, the handler invocation itself) are passed in as
abstract outcomes.
-/

namespace WasmtimeServe

/-! ## Captured-output streams (`LogStream`)

`LogStream::write` splits the incoming bytes on `b'\n'` (byte 10) and, for
every nonempty segment, appends `prefix ++ segment ++ "\n"` to the message
flushed to the host's stdout/stderr. -/

/-- Embedding of Rust's `bytes.split(|c| *c == b'\n')`: the (possibly empty)
maximal segments of `bytes` between newline bytes. An empty input yields one
empty segment, as in Rust. -/
def splitNl : List Nat → List (List Nat)
  | [] => [[]]
  | b :: rest =>
    match splitNl rest with
    | [] => [[]]
    | cur :: rs => if b = 10 then [] :: cur :: rs else (b :: cur) :: rs

/-- Embedding of `LogStream::write` (`serve.rs` lines 531–545): the bytes the
host writes out for one `write` call with line tag `pfx`. The fold mirrors
the source's loop, skipping empty segments and newline-terminating the rest. -/
def logStreamWrite (pfx : List Nat) (bytes : List Nat) : List Nat :=
  (splitNl bytes).foldl (fun msg line => if line.isEmpty then msg else msg ++ pfx ++ line ++ [10]) []

/-- The stdout line tag built in `ServeCommand::new_store`:
`format!("stdout [{req_id}] :: ")`. -/
def stdoutTag (reqId : Nat) : String := "stdout [" ++ toString reqId ++ "] :: "

/-- The stderr line tag built in `ServeCommand::new_store`:
`format!("stderr [{req_id}] :: ")`. -/
def stderrTag (reqId : Nat) : String := "stderr [" ++ toString reqId ++ "] :: "

/-- Bytes of an (ASCII) string, used to connect the `String` tags of
`new_store` with the byte-level `logStreamWrite`. -/
def strBytes (s : String) : List Nat := s.data.map Char.toNat

/-! ## Sandbox factory (`ServeCommand::new_store`) and epoch deadlines -/

/-- `const EPOCH_PRECISION: u32 = 10` (`serve.rs` line 341). -/
def EPOCH_PRECISION : Nat := 10

/-- The observable per-request store configuration produced by
`ServeCommand::new_store` (`serve.rs` lines 134–193): the `REQUEST_ID`
environment value, the stdout/stderr line tags, the epoch deadline set
iff a wall-clock timeout is configured, and the optional fuel budget. -/
structure StoreModel where
  envReqId : Nat
  stdoutPfx : String
  stderrPfx : String
  epochDeadline : Option Nat
  fuel : Option Nat
deriving DecidableEq

/-- Embedding of `ServeCommand::new_store`. The timeout is the configured
wall-clock deadline (`self.run.common.wasm.timeout`), idealized as a
rational number of time units; only its presence matters to the store. -/
def new_store (timeout : Option ℚ) (fuelCfg : Option Nat) (reqId : Nat) : StoreModel :=
  { envReqId := reqId
    stdoutPfx := stdoutTag reqId
    stderrPfx := stderrTag reqId
    epochDeadline := if timeout.isSome then some (EPOCH_PRECISION + 1) else none
    fuel := fuelCfg }

/-- The sleep interval handed to `EpochThread::spawn` in `ServeCommand::serve`
(line 306): `timeout / EPOCH_PRECISION`, idealized as exact rational
division. -/
def epochSleepInterval (T : ℚ) : ℚ := T / (EPOCH_PRECISION : ℚ)

/-- Wall-clock time of the `i`-th increment of the global epoch counter by an
ideal ticker that sleeps `epochSleepInterval T` between increments. -/
def tickTime (T : ℚ) (i : Nat) : ℚ := (i : ℚ) * epochSleepInterval T

/-- Wall-clock time at which a store created while the global epoch counter
reads `e0` is interrupted: its deadline is `EPOCH_PRECISION + 1` ticks ahead,
so the `(e0 + EPOCH_PRECISION + 1)`-th increment triggers it. -/
def interruptTime (T : ℚ) (e0 : Nat) : ℚ := tickTime T (e0 + (EPOCH_PRECISION + 1))

/-! ## Epoch ticker thread (`EpochThread`, lines 343–373)

The spawned thread loops `while !shutdown.load() { sleep(timeout);
increment_epoch(); }`; `Drop` stores `true` into the flag and joins. The
thread is modelled as a two-position loop (about to load the flag / inside
the sleep), interleaved with the dropping thread's flag store. -/

/-- Position of the ticker thread within its loop. -/
inductive ThreadPos where
  | atCheck
  | sleeping
deriving DecidableEq

/-- Joint state of the shared shutdown flag, the ticker thread (`none` once
it has exited and is joinable), and the engine's global epoch counter. -/
structure EpochThreadState where
  shutdown : Bool
  pos : Option ThreadPos
  epoch : Nat
deriving DecidableEq

/-- Interleaved events: the ticker loads the flag at the loop head, or wakes
from its sleep and increments the epoch; the dropping thread stores the
flag. -/
inductive EpochEvent where
  | checkFlag
  | wake
  | setShutdown
deriving DecidableEq

/-- One interleaving step of the ticker system. -/
def epochStep (s : EpochThreadState) : EpochEvent → EpochThreadState
  | .setShutdown => { s with shutdown := true }
  | .checkFlag =>
    match s.pos with
    | some .atCheck =>
      if s.shutdown then { s with pos := none } else { s with pos := some .sleeping }
    | _ => s
  | .wake =>
    match s.pos with
    | some .sleeping => { s with pos := some .atCheck, epoch := s.epoch + 1 }
    | _ => s

/-- Run a sequence of interleaving steps. -/
def epochRun (s : EpochThreadState) (evs : List EpochEvent) : EpochThreadState :=
  evs.foldl epochStep s

/-- How many more epoch increments the ticker can still perform once the
shutdown flag is set: one if it is mid-sleep, none otherwise. -/
def remBudget (s : EpochThreadState) : Nat :=
  if s.pos = some ThreadPos.sleeping then 1 else 0

/-- The ticker thread's own next step (it is the only agent moving here):
load the flag, or wake and increment. -/
def threadAdvance (s : EpochThreadState) : EpochThreadState :=
  match s.pos with
  | some .atCheck => epochStep s .checkFlag
  | some .sleeping => epochStep s .wake
  | none => s

/-! ## Request id counter (`ProxyHandlerInner::next_req_id`, lines 382–386) -/

/-- `2^64`, the modulus of `AtomicU64`. -/
def U64_MOD : Nat := 2 ^ 64

/-- `self.next_id.fetch_add(1, Ordering::Relaxed)`: returns the current
counter value and stores its wrapped successor. -/
def next_req_id (c : Nat) : Nat × Nat := (c, (c + 1) % U64_MOD)

/-- Counter contents before the `n`-th call, starting from
`AtomicU64::from(0)` in `ProxyHandler::new` (line 397). -/
def reqCounterState : Nat → Nat
  | 0 => 0
  | n + 1 => (next_req_id (reqCounterState n)).2

/-- The id returned by the `n`-th call (0-based). -/
def reqId (n : Nat) : Nat := (next_req_id (reqCounterState n)).1

/-! ## Allocator viability probe (`use_pooling_allocator_by_default`,
lines 582–597) -/

/-- `const BITS_TO_TEST: u32 = 42`. -/
def BITS_TO_TEST : Nat := 42

/-- Bytes per wasm page (the 16 bits divided out of the maximum). -/
def WASM_PAGE_SIZE : Nat := 2 ^ 16

/-- The memory type the probe attempts to create:
`MemoryType::new64(0, Some(1 << (BITS_TO_TEST - 16)))`. -/
structure ProbeMemoryType where
  is64 : Bool
  minPages : Nat
  maxPages : Option Nat
deriving DecidableEq

/-- The concrete probe memory type. -/
def probeMemoryType : ProbeMemoryType :=
  { is64 := true, minPages := 0, maxPages := some (2 ^ (BITS_TO_TEST - 16)) }

/-- Embedding of `use_pooling_allocator_by_default`: engine creation is an
external fallible step; `memoryNewOk` is whether `Memory::new` succeeded in
reserving the probe memory. A failed reservation yields `Ok(None)` — the
"use fallback" signal — never an error of its own. -/
def use_pooling_allocator_by_default (engineNew : Except String Unit) (memoryNewOk : Bool) :
    Except String (Option Bool) :=
  match engineNew with
  | .error e => .error e
  | .ok () => if memoryNewOk then .ok (some true) else .ok none

/-- The pooling hint actually passed to the engine config in
`ServeCommand::serve` (line 254): `use_pooling_allocator_by_default().unwrap_or(None)`,
so a probe error also becomes the fallback strategy. -/
def servePoolingHint (probe : Except String (Option Bool)) : Option Bool :=
  match probe with
  | .ok v => v
  | .error _ => none

/-! ## Request normalization (`handle_request`, lines 416–442) -/

/-- A UTF-8 continuation byte (`0x80..=0xBF`). -/
def isCont (b : Nat) : Bool := decide (0x80 ≤ b ∧ b ≤ 0xBF)

/-- UTF-8 validity of a byte string, as checked by Rust's
`std::str::from_utf8` on the Host header value. -/
def utf8Valid : List Nat → Bool
  | [] => true
  | b :: rest =>
    if b ≤ 0x7F then utf8Valid rest
    else if 0xC2 ≤ b ∧ b ≤ 0xDF then
      match rest with
      | b2 :: rest2 => isCont b2 && utf8Valid rest2
      | [] => false
    else if b = 0xE0 then
      match rest with
      | b2 :: b3 :: rest3 => decide (0xA0 ≤ b2 ∧ b2 ≤ 0xBF) && isCont b3 && utf8Valid rest3
      | _ => false
    else if (0xE1 ≤ b ∧ b ≤ 0xEC) ∨ b = 0xEE ∨ b = 0xEF then
      match rest with
      | b2 :: b3 :: rest3 => isCont b2 && isCont b3 && utf8Valid rest3
      | _ => false
    else if b = 0xED then
      match rest with
      | b2 :: b3 :: rest3 => decide (0x80 ≤ b2 ∧ b2 ≤ 0x9F) && isCont b3 && utf8Valid rest3
      | _ => false
    else if b = 0xF0 then
      match rest with
      | b2 :: b3 :: b4 :: rest4 =>
        decide (0x90 ≤ b2 ∧ b2 ≤ 0xBF) && isCont b3 && isCont b4 && utf8Valid rest4
      | _ => false
    else if 0xF1 ≤ b ∧ b ≤ 0xF3 then
      match rest with
      | b2 :: b3 :: b4 :: rest4 => isCont b2 && isCont b3 && isCont b4 && utf8Valid rest4
      | _ => false
    else if b = 0xF4 then
      match rest with
      | b2 :: b3 :: b4 :: rest4 =>
        decide (0x80 ≤ b2 ∧ b2 ≤ 0x8F) && isCont b3 && isCont b4 && utf8Valid rest4
      | _ => false
    else false

/-- The authority component of the original request URI; `host` is what the
source extracts via `.host()`. -/
structure Authority where
  host : List Nat
deriving DecidableEq

/-- The parts of the original request URI consulted by the dispatcher. -/
structure UriParts where
  scheme : Option String
  authority : Option Authority
  pathAndQuery : Option (List Nat)
deriving DecidableEq

/-- The parts of the inbound request consulted by URI normalization: the raw
Host header bytes (if the header is present) and the request-line URI. -/
structure ReqParts where
  hostHeader : Option (List Nat)
  uri : UriParts
deriving DecidableEq

/-- `wasi:http` error codes produced by the dispatcher's normalization. -/
inductive ErrorCode where
  | HttpRequestUriInvalid
deriving DecidableEq

/-- The normalized absolute URI the dispatcher rebuilds. -/
structure NormUri where
  scheme : String
  authority : List Nat
  pathAndQuery : List Nat
deriving DecidableEq

/-- The authority chosen by `handle_request` (lines 421–430): the Host
header decoded as UTF-8 when the header is present (invalid UTF-8 is a
malformed-URI error), otherwise the URI's authority host, whose absence is a
malformed-URI error. -/
def hostOf (req : ReqParts) : Except ErrorCode (List Nat) :=
  match req.hostHeader with
  | some bytes => if utf8Valid bytes then .ok bytes else .error .HttpRequestUriInvalid
  | none =>
    match req.uri.authority with
    | some a => .ok a.host
    | none => .error .HttpRequestUriInvalid

/-- Embedding of the URI normalization in `handle_request` (lines 416–442):
default the scheme to HTTP, choose the authority via `hostOf`, require a
path-and-query, and rebuild the URI. (The final `Uri::builder().build()`
re-validation lives in the external `http` crate; components reaching it
here are structurally well-formed.) -/
def normalizeUri (req : ReqParts) : Except ErrorCode NormUri :=
  match hostOf req with
  | .error e => .error e
  | .ok host =>
    match req.uri.pathAndQuery with
    | none => .error .HttpRequestUriInvalid
    | some pq =>
      .ok { scheme := req.uri.scheme.getD "http", authority := host, pathAndQuery := pq }

/-- Abstract outcomes of the external steps of the spawned request task:
store construction (`new_store`), pre-instantiation
(`instantiate_async`), and the handler invocation (`call_handle`). -/
structure TaskExt where
  storeRes : Except String Unit
  instRes : Except String Unit
  callRes : Except String Unit

/-- Errors with which the spawned request task can terminate, tagged by the
failing step. -/
inductive TaskError where
  | uriErr : ErrorCode → TaskError
  | storeErr : String → TaskError
  | instErr : String → TaskError
  | callErr : String → TaskError
deriving DecidableEq

/-- The spawned task of `handle_request` (lines 412–469) as a sequential
pipeline. The `Nat` component counts how many stores (sandboxes) were
constructed while the task ran. -/
def taskRun (req : ReqParts) (ext : TaskExt) : Nat × Except TaskError Unit :=
  match normalizeUri req with
  | .error e => (0, .error (.uriErr e))
  | .ok _ =>
    match ext.storeRes with
    | .error m => (0, .error (.storeErr m))
    | .ok () =>
      match ext.instRes with
      | .error m => (1, .error (.instErr m))
      | .ok () =>
        match ext.callRes with
        | .error m => (1, .error (.callErr m))
        | .ok () => (1, .ok ())

/-! ## Response handoff (`handle_request`, lines 471–489) -/

/-- Result of `receiver.await` on the oneshot response channel: the sent
value (itself a `Result` of a response `ρ` or an error code `ε`), or
`RecvError` because the sender was dropped without a send. -/
inductive RecvResult (ρ ε : Type) where
  | value : Except ε ρ → RecvResult ρ ε
  | recvError

/-- Result of `task.await` on the spawned invocation task: `Ok` carrying the
task's own `Result<(), Error>`, or a join error. -/
inductive TaskAwait (τ : Type) where
  | finished : Except τ Unit → TaskAwait τ
  | joinError : τ → TaskAwait τ

/-- What `handle_request` delivers to the connection layer: a response, an
error, or — modelled explicitly — a panic of the dispatcher itself. -/
inductive HandleOutcome (ρ ε τ : Type) where
  | response : ρ → HandleOutcome ρ ε τ
  | errorCodeErr : ε → HandleOutcome ρ ε τ
  | guestNeverInvoked : τ → HandleOutcome ρ ε τ
  | panicked : String → HandleOutcome ρ ε τ

/-- Embedding of the `match receiver.await` block (lines 471–488). On
`RecvError` the code awaits the task: a task error (or join error) becomes
the `bail!("guest never invoked response-outparam::set method: ...")`
diagnostic carrying the task's actual termination value; a task that
finished `Ok(())` hits `r.expect_err(...)`, which panics. -/
def dispatchOutcome {ρ ε τ : Type} (recv : RecvResult ρ ε) (task : TaskAwait τ) :
    HandleOutcome ρ ε τ :=
  match recv with
  | .value (.ok resp) => .response resp
  | .value (.error e) => .errorCodeErr e
  | .recvError =>
    match task with
    | .finished (.error e) => .guestNeverInvoked e
    | .finished (.ok ()) => .panicked "if the receiver has an error, the task must have failed"
    | .joinError e => .guestNeverInvoked e

/-- Joint semantics of one request's invocation task: whether it ever sent
on the oneshot channel, and its own awaited termination. A task that never
sent leaves the receiver with `RecvError` (the sender is dropped when the
task's store is dropped). -/
structure TaskSem (ρ ε τ : Type) where
  sent : Option (Except ε ρ)
  outcome : TaskAwait τ

/-- The receiver's view of a task. -/
def recvOf {ρ ε τ : Type} (t : TaskSem ρ ε τ) : RecvResult ρ ε :=
  match t.sent with
  | some v => .value v
  | none => .recvError

/-- `handle_request`'s result as a function of the task's joint semantics. -/
def handle_request {ρ ε τ : Type} (t : TaskSem ρ ε τ) : HandleOutcome ρ ε τ :=
  dispatchOutcome (recvOf t) t.outcome

/-! ## Startup validation (`execute` lines 78–132, `add_to_linker`
lines 195–246, `serve` lines 248–334) -/

/-- The `-S` WASI toggles consulted by `serve` startup. -/
structure WasiConfig where
  nn : Option Bool
  threads : Option Bool
  http : Option Bool
  cli : Option Bool
  common : Option Bool
deriving DecidableEq

/-- The run options consulted by startup validation: the WASI toggles, the
component-model toggle, and whether the guest profiler was requested. -/
structure RunConfig where
  wasi : WasiConfig
  componentModel : Option Bool
  guestProfile : Bool
deriving DecidableEq

/-- The cli-error checks of `ServeCommand::execute` (lines 83–112), in
source order; `feat` is `cfg!(feature = "wasi-nn")`. On success the config
is updated by the two `replace(true)` calls (wasi-http and the component
model are force-enabled). -/
def executeChecks (feat : Bool) (c : RunConfig) : Except String RunConfig :=
  if c.wasi.nn = some true ∧ feat = false then
    .error "Cannot enable wasi-nn when the binary is not compiled with this feature."
  else if c.guestProfile then
    .error "Cannot use the guest profiler with components"
  else if c.wasi.threads = some true then
    .error "wasi-threads does not support components yet"
  else if c.wasi.http = some false then
    .error "wasi-http is required for the serve command, and must not be disabled"
  else if c.componentModel = some false then
    .error "components are required for the serve command, and must not be disabled"
  else
    .ok { c with wasi := { c.wasi with http := some true }, componentModel := some true }

/-- The checks of `ServeCommand::add_to_linker` (lines 195–246): the
deprecated `-Scommon` alias may not be combined with `-Scli`; then the
wasi-nn, wasi-threads and wasi-http checks in source order. (The linker
additions themselves are external and infallible here.) -/
def add_to_linker (feat : Bool) (c : RunConfig) : Except String Unit :=
  match c.wasi.common, c.wasi.cli with
  | some _, some _ =>
    .error "The -Scommon option should not be use with -Scli as it is a deprecated alias"
  | _, _ =>
    if c.wasi.nn = some true ∧ feat = false then
      .error "support for wasi-nn was disabled at compile time"
    else if c.wasi.threads = some true then
      .error "support for wasi-threads is not available with components"
    else if c.wasi.http = some false then
      .error "support for wasi-http must be enabled for `serve` subcommand"
    else .ok ()

/-- Stages of `execute`/`serve` in source order, up to entering the accept
loop. -/
inductive ServeStage where
  | validate
  | engineSetup
  | linker
  | loadComponent
  | instantiatePre
  | socketBind
deriving DecidableEq

/-- `ServeCommand::execute` followed by `serve` up to binding the listening
socket: the stages completed in order, and the final outcome. Component
loading and pre-instantiation are external fallible steps. The socket is
created and bound only after every check and setup step has succeeded. -/
def startup (feat : Bool) (c : RunConfig) (loadRes instRes : Except String Unit) :
    List ServeStage × Except String Unit :=
  match executeChecks feat c with
  | .error m => ([], .error m)
  | .ok c' =>
    match add_to_linker feat c' with
    | .error m => ([.validate, .engineSetup], .error m)
    | .ok () =>
      match loadRes with
      | .error m => ([.validate, .engineSetup, .linker], .error m)
      | .ok () =>
        match instRes with
        | .error m => ([.validate, .engineSetup, .linker, .loadComponent], .error m)
        | .ok () =>
          ([.validate, .engineSetup, .linker, .loadComponent, .instantiatePre, .socketBind],
            .ok ())

/-! ## Helper lemmas -/

/-- Reassociating the fold of `logStreamWrite` over an accumulator. -/
theorem logWriteFold_append (pfx : List Nat) (ls : List (List Nat)) (acc : List Nat) :
    ls.foldl (fun msg line => if line.isEmpty then msg else msg ++ pfx ++ line ++ [10]) acc
      = acc ++ ((ls.filter (fun l => !l.isEmpty)).map (fun l => pfx ++ l ++ [10])).flatten := by
  induction ls generalizing acc with
  | nil => simp
  | cons hd tl ih =>
    rw [List.foldl_cons]
    cases h : hd.isEmpty with
    | true =>
      rw [if_pos rfl, ih, List.filter_cons]
      simp [h]
    | false =>
      rw [if_neg (by simp), ih, List.filter_cons]
      simp [h, List.append_assoc]

/-- `logStreamWrite` emits exactly the nonempty segments, tagged and
newline-terminated, in order. -/
theorem logStreamWrite_eq (pfx bytes : List Nat) :
    logStreamWrite pfx bytes
      = (((splitNl bytes).filter (fun l => !l.isEmpty)).map (fun l => pfx ++ l ++ [10])).flatten := by
  simpa [logStreamWrite] using logWriteFold_append pfx (splitNl bytes) []

/-- Splitting a byte string consisting solely of newline bytes yields only
empty segments. -/
theorem splitNl_all_newlines (bytes : List Nat) (h : ∀ b ∈ bytes, b = 10) :
    (splitNl bytes).filter (fun l => !l.isEmpty) = [] := by
  induction bytes with
  | nil => simp [splitNl]
  | cons b rest ih =>
    have hb : b = 10 := h b (by simp)
    have hrest : ∀ x ∈ rest, x = 10 := fun x hx => h x (by simp [hx])
    have hr := ih hrest
    cases hsp : splitNl rest with
    | nil => simp [splitNl, hsp]
    | cons cur rs =>
      rw [hsp] at hr
      simp only [splitNl, hsp, hb, if_pos rfl]
      simpa using hr

/-- A byte string with no newline byte splits into the single segment
consisting of the whole string. -/
theorem splitNl_no_newline (bytes : List Nat) (h : ∀ b ∈ bytes, b ≠ 10) :
    splitNl bytes = [bytes] := by
  induction bytes with
  | nil => simp [splitNl]
  | cons b rest ih =>
    have hb : b ≠ 10 := h b (by simp)
    have hrest : ∀ x ∈ rest, x ≠ 10 := fun x hx => h x (by simp [hx])
    simp [splitNl, ih hrest, hb]

theorem tickTime_add (T : ℚ) (a b : Nat) :
    tickTime T (a + b) = tickTime T a + (b : ℚ) * epochSleepInterval T := by
  unfold tickTime
  push_cast
  ring

/-- The request-id counter always holds `n % 2^64` after `n` calls. -/
theorem reqCounterState_eq (n : Nat) : reqCounterState n = n % U64_MOD := by
  induction n with
  | zero => rfl
  | succ n ih =>
    simp only [reqCounterState, next_req_id, ih, U64_MOD]
    omega

/-- A single step from a state whose ticker thread has exited neither
revives the thread nor changes the epoch. -/
theorem epochStep_exited (s : EpochThreadState) (ev : EpochEvent) (h : s.pos = none) :
    (epochStep s ev).pos = none ∧ (epochStep s ev).epoch = s.epoch := by
  cases ev <;> simp [epochStep, h]

/-- After the ticker thread has exited, no sequence of further events
changes the epoch counter, and the thread stays exited. -/
theorem epochRun_exited (evs : List EpochEvent) (s : EpochThreadState) (h : s.pos = none) :
    (epochRun s evs).epoch = s.epoch ∧ (epochRun s evs).pos = none := by
  induction evs generalizing s with
  | nil => exact ⟨rfl, h⟩
  | cons ev evs ih =>
    obtain ⟨hpos, hepoch⟩ := epochStep_exited s ev h
    have := ih (epochStep s ev) hpos
    simp only [epochRun, List.foldl_cons] at *
    exact ⟨this.1.trans hepoch, this.2⟩

/-- One step preserves a set shutdown flag and never increases
`epoch + remBudget`. -/
theorem epochStep_shutdown (s : EpochThreadState) (ev : EpochEvent) (h : s.shutdown = true) :
    (epochStep s ev).shutdown = true
    ∧ (epochStep s ev).epoch + remBudget (epochStep s ev) ≤ s.epoch + remBudget s := by
  cases ev with
  | setShutdown => simp [epochStep, remBudget, h]
  | checkFlag =>
    match hp : s.pos with
    | some .atCheck => simp [epochStep, hp, h, remBudget]
    | some .sleeping => simp [epochStep, hp, h, remBudget]
    | none => simp [epochStep, hp, h, remBudget]
  | wake =>
    match hp : s.pos with
    | some .atCheck => simp [epochStep, hp, h, remBudget]
    | some .sleeping => simp [epochStep, hp, h, remBudget]
    | none => simp [epochStep, hp, h, remBudget]

/-- With the shutdown flag set, any further interleaving keeps the flag set
and performs at most `remBudget` further epoch increments. -/
theorem epochRun_shutdown (evs : List EpochEvent) (s : EpochThreadState) (h : s.shutdown = true) :
    (epochRun s evs).shutdown = true
    ∧ (epochRun s evs).epoch + remBudget (epochRun s evs) ≤ s.epoch + remBudget s := by
  induction evs generalizing s with
  | nil => exact ⟨h, le_refl _⟩
  | cons ev evs ih =>
    obtain ⟨hflag, hmono⟩ := epochStep_shutdown s ev h
    have := ih (epochStep s ev) hflag
    simp only [epochRun, List.foldl_cons] at *
    exact ⟨this.1, this.2.trans hmono⟩

/-! ## Claim theorems -/

/-- C1 — behaviour of the dispatcher when the invocation task never sends on
the response channel. The code does await the task's own outcome, and when
the task terminated with a failure it surfaces that actual termination value
inside the "guest never invoked response-outparam::set" error (never a
generic receiver-dropped message). But at the claim's distinguished input —
the task completed successfully without signalling — `r.expect_err(...)`
panics instead of returning the claimed error to the connection layer: the
code contradicts the claim (and the intent of its own surrounding comment),
a code bug. -/
theorem c1_handoff_without_signal :
    handle_request (ρ := Unit) (ε := Unit) (τ := String)
        { sent := none, outcome := .finished (.ok ()) }
      = .panicked "if the receiver has an error, the task must have failed"
    ∧ (∀ e : String, handle_request (ρ := Unit) (ε := Unit)
        { sent := none, outcome := .finished (.error e) } = .guestNeverInvoked e)
    ∧ (∀ e : String, handle_request (ρ := Unit) (ε := Unit)
        { sent := none, outcome := .joinError e } = .guestNeverInvoked e) :=
  ⟨rfl, fun _ => rfl, fun _ => rfl⟩

/-- C2 — when a wall-clock deadline `T` with precision 10 is configured,
each new store's epoch deadline is `EPOCH_PRECISION + 1 = 11` ticks ahead of
the current global epoch and the ticker increments the epoch every `T/10`;
hence a sandbox created at wall-clock time `t0`, at which point `e0`
increments have occurred, is interrupted strictly after `T` and no later
than `T + T/10` has elapsed since its creation. -/
theorem c2_epoch_deadline_bounds (T : ℚ) (fuelCfg : Option Nat) (reqIdN : Nat)
    (t0 : ℚ) (e0 : Nat) (hT : 0 < T)
    (hlo : tickTime T e0 ≤ t0) (hhi : t0 < tickTime T (e0 + 1)) :
    (new_store (some T) fuelCfg reqIdN).epochDeadline = some (EPOCH_PRECISION + 1)
    ∧ EPOCH_PRECISION + 1 = 11
    ∧ T < interruptTime T e0 - t0
    ∧ interruptTime T e0 - t0 ≤ T + epochSleepInterval T := by
  have hkey : (10 : ℚ) * epochSleepInterval T = T := by
    unfold epochSleepInterval EPOCH_PRECISION
    push_cast
    ring
  have hsplit : interruptTime T e0 = tickTime T (e0 + 1) + 10 * epochSleepInterval T := by
    unfold interruptTime
    show tickTime T (e0 + 11) = _
    have h1 : e0 + 11 = (e0 + 1) + 10 := by omega
    rw [h1, tickTime_add]
    norm_num
  have hsplit' : interruptTime T e0 = tickTime T e0 + 11 * epochSleepInterval T := by
    unfold interruptTime
    show tickTime T (e0 + 11) = _
    rw [tickTime_add]
    norm_num
  refine ⟨rfl, rfl, ?_, ?_⟩
  · rw [hsplit]
    linarith
  · rw [hsplit']
    linarith

/-- Witness for C2 at `T = 10`, creation time `t0 = 1/2` within the first
tick interval (`e0 = 0`). -/
theorem c2_epoch_deadline_bounds_witness :
    (new_store (some 10) none 0).epochDeadline = some (EPOCH_PRECISION + 1)
    ∧ EPOCH_PRECISION + 1 = 11
    ∧ (10 : ℚ) < interruptTime 10 0 - 1/2
    ∧ interruptTime 10 0 - 1/2 ≤ 10 + epochSleepInterval 10 :=
  c2_epoch_deadline_bounds 10 none 0 (1/2) 0 (by norm_num)
    (by norm_num [tickTime, epochSleepInterval, EPOCH_PRECISION])
    (by norm_num [tickTime, epochSleepInterval, EPOCH_PRECISION])

/-- C3 counterexample — the claim asserts a partial line lacking a trailing
line terminator is not flushed (produces no output until the terminator
arrives), but `LogStream::write` of the two bytes `"hi"` — no newline —
immediately produces output. -/
theorem c3_partial_line_not_flushed_counterexample :
    logStreamWrite (strBytes (stdoutTag 7)) [104, 105] ≠ [] := by
  decide

/-- C3 (amended) — guest stdout/stderr lines are logged with the host tags
`"stdout [<id>] :: "` / `"stderr [<id>] :: "` respectively, but a partial
line lacking a trailing line terminator is flushed immediately — emitted
tagged with a newline appended — rather than buffered until its terminator
arrives. -/
theorem c3_line_tagging (timeout : Option ℚ) (fuelCfg : Option Nat) (reqIdN : Nat)
    (bytes : List Nat) (hne : bytes ≠ []) (hnn : ∀ b ∈ bytes, b ≠ 10) :
    (new_store timeout fuelCfg reqIdN).stdoutPfx = "stdout [" ++ toString reqIdN ++ "] :: "
    ∧ (new_store timeout fuelCfg reqIdN).stderrPfx = "stderr [" ++ toString reqIdN ++ "] :: "
    ∧ ∀ pfx, logStreamWrite pfx bytes = pfx ++ bytes ++ [10] := by
  refine ⟨rfl, rfl, fun pfx => ?_⟩
  rw [logStreamWrite_eq, splitNl_no_newline bytes hnn]
  simp [hne]

/-- Witness for C3 (amended) at request id 7 and the partial line `"hi"`. -/
theorem c3_line_tagging_witness :
    (new_store none none 7).stdoutPfx = "stdout [" ++ toString 7 ++ "] :: "
    ∧ (new_store none none 7).stderrPfx = "stderr [" ++ toString 7 ++ "] :: "
    ∧ ∀ pfx, logStreamWrite pfx [104, 105] = pfx ++ [104, 105] ++ [10] :=
  c3_line_tagging none none 7 [104, 105] (by decide) (by decide)

/-- C4 — the probe attempts a zero-sized 64-bit memory whose declared
maximum spans `2^42` bytes of address space; a failed reservation makes the
probe return the "use fallback" signal `Ok(None)` rather than an error, and
`serve` maps any probe error to the fallback hint via `unwrap_or(None)`, so
address-space exhaustion in the probe alone never aborts startup. -/
theorem c4_probe_failure_is_fallback :
    probeMemoryType.is64 = true
    ∧ probeMemoryType.minPages = 0
    ∧ probeMemoryType.maxPages.map (· * WASM_PAGE_SIZE) = some (2 ^ 42)
    ∧ use_pooling_allocator_by_default (.ok ()) false = .ok none
    ∧ (∀ e, servePoolingHint (.error e) = none)
    ∧ (∀ eng, servePoolingHint (use_pooling_allocator_by_default eng false) = none) := by
  refine ⟨rfl, rfl, by norm_num [probeMemoryType, BITS_TO_TEST, WASM_PAGE_SIZE], rfl,
    fun e => rfl, fun eng => ?_⟩
  cases eng with
  | error e => rfl
  | ok u => cases u; rfl

/-- C5 — a request with neither a Host header nor a usable authority
component is rejected with `HttpRequestUriInvalid` by the task before any
store (sandbox) is constructed; and whenever a Host header is present and a
normalized URI is produced, its authority is the header value — the URI's
own authority component is never preferred over it. -/
theorem c5_missing_authority_rejected (req : ReqParts) (ext : TaskExt)
    (hh : req.hostHeader = none) (ha : req.uri.authority = none) :
    taskRun req ext = (0, .error (.uriErr .HttpRequestUriInvalid))
    ∧ ∀ (req' : ReqParts) (bytes : List Nat) (u : NormUri),
        req'.hostHeader = some bytes → normalizeUri req' = .ok u → u.authority = bytes := by
  constructor
  · have : normalizeUri req = .error .HttpRequestUriInvalid := by
      simp [normalizeUri, hostOf, hh, ha]
    simp [taskRun, this]
  · intro req' bytes u hb hn
    have hh' : hostOf req'
        = if utf8Valid bytes then .ok bytes else .error .HttpRequestUriInvalid := by
      unfold hostOf
      rw [hb]
    unfold normalizeUri at hn
    rw [hh'] at hn
    by_cases hv : utf8Valid bytes = true
    · rw [if_pos hv] at hn
      cases hpq : req'.uri.pathAndQuery with
      | none => rw [hpq] at hn; cases hn
      | some pq =>
        rw [hpq] at hn
        cases hn
        rfl
    · rw [if_neg hv] at hn
      cases hn

/-- Witness for C5: a request with no Host header, no authority, and an
otherwise well-formed target. -/
theorem c5_missing_authority_rejected_witness :
    taskRun ⟨none, ⟨none, none, some [47]⟩⟩ ⟨.ok (), .ok (), .ok ()⟩
      = (0, .error (.uriErr .HttpRequestUriInvalid))
    ∧ ∀ (req' : ReqParts) (bytes : List Nat) (u : NormUri),
        req'.hostHeader = some bytes → normalizeUri req' = .ok u → u.authority = bytes :=
  c5_missing_authority_rejected ⟨none, ⟨none, none, some [47]⟩⟩ ⟨.ok (), .ok (), .ok ()⟩ rfl rfl

/-- C6 — dropping `EpochThread` first stores the shutdown flag and then
joins: with the flag set the ticker performs at most one more
sleep-and-increment iteration (so the epoch grows by at most one and the
thread reaches the exit within two of its own steps), and once the thread
has exited — which is what `join` returning means — no interleaving of
further events ever changes the global epoch counter again. -/
theorem c6_epoch_thread_teardown (s : EpochThreadState) (evs : List EpochEvent) :
    (epochStep s .setShutdown).shutdown = true
    ∧ (epochRun (epochStep s .setShutdown) evs).epoch ≤ s.epoch + 1
    ∧ (threadAdvance (threadAdvance (epochStep s .setShutdown))).pos = none
    ∧ (∀ t : EpochThreadState, t.pos = none →
        (epochRun t evs).epoch = t.epoch ∧ (epochRun t evs).pos = none) := by
  have hset : (epochStep s .setShutdown).shutdown = true := rfl
  refine ⟨hset, ?_, ?_, fun t ht => epochRun_exited evs t ht⟩
  · have h := (epochRun_shutdown evs (epochStep s .setShutdown) hset).2
    have hbudget : remBudget (epochStep s .setShutdown) ≤ 1 := by
      unfold remBudget
      split <;> omega
    have hepoch : (epochStep s .setShutdown).epoch = s.epoch := rfl
    omega
  · match hp : s.pos with
    | some .atCheck => simp [epochStep, threadAdvance, hp]
    | some .sleeping => simp [epochStep, threadAdvance, hp]
    | none => simp [epochStep, threadAdvance, hp]

/-- Witness for C6 from a running, mid-sleep ticker state. -/
theorem c6_epoch_thread_teardown_witness :
    (epochStep ⟨false, some .sleeping, 5⟩ .setShutdown).shutdown = true
    ∧ (epochRun (epochStep ⟨false, some .sleeping, 5⟩ .setShutdown)
        [.wake, .checkFlag, .wake, .checkFlag]).epoch ≤ 5 + 1
    ∧ (threadAdvance (threadAdvance (epochStep ⟨false, some .sleeping, 5⟩ .setShutdown))).pos
        = none
    ∧ (∀ t : EpochThreadState, t.pos = none →
        (epochRun t [.wake, .checkFlag, .wake, .checkFlag]).epoch = t.epoch
        ∧ (epochRun t [.wake, .checkFlag, .wake, .checkFlag]).pos = none) :=
  c6_epoch_thread_teardown ⟨false, some .sleeping, 5⟩ [.wake, .checkFlag, .wake, .checkFlag]

/-- C7 — every startup configuration error named by the claim (the
deprecated `-Scommon` alias combined with `-Scli`, disabling wasi-http or
the component model, enabling wasi-nn or wasi-threads when unsupported)
makes startup fail before the listening socket is bound, so no connection is
accepted under an invalid configuration. -/
theorem c7_validation_before_bind (feat : Bool) (c : RunConfig)
    (loadRes instRes : Except String Unit)
    (hbad : (c.wasi.common.isSome ∧ c.wasi.cli.isSome)
      ∨ c.wasi.http = some false
      ∨ c.componentModel = some false
      ∨ (c.wasi.nn = some true ∧ feat = false)
      ∨ c.wasi.threads = some true) :
    (∃ m, (startup feat c loadRes instRes).2 = .error m)
    ∧ ServeStage.socketBind ∉ (startup feat c loadRes instRes).1 := by
  cases hex : executeChecks feat c with
  | error m =>
    simp [startup, hex]
  | ok c' =>
    have hshape : ¬(c.wasi.nn = some true ∧ feat = false)
        ∧ c.wasi.threads ≠ some true
        ∧ c.wasi.http ≠ some false
        ∧ c.componentModel ≠ some false
        ∧ c'.wasi.common = c.wasi.common
        ∧ c'.wasi.cli = c.wasi.cli := by
      unfold executeChecks at hex
      split_ifs at hex with h1 h2 h3 h4 h5
      cases hex
      exact ⟨h1, h3, h4, h5, rfl, rfl⟩
    have hcc : c.wasi.common.isSome ∧ c.wasi.cli.isSome := by
      rcases hbad with h | h | h | h | h
      · exact h
      · exact absurd h hshape.2.2.1
      · exact absurd h hshape.2.2.2.1
      · exact absurd h hshape.1
      · exact absurd h hshape.2.1
    obtain ⟨x, hx⟩ := Option.isSome_iff_exists.mp hcc.1
    obtain ⟨y, hy⟩ := Option.isSome_iff_exists.mp hcc.2
    have hlink : add_to_linker feat c'
        = .error "The -Scommon option should not be use with -Scli as it is a deprecated alias" := by
      unfold add_to_linker
      rw [hshape.2.2.2.2.1, hshape.2.2.2.2.2, hx, hy]
    simp [startup, hex, hlink]

/-- Witness for C7: `-Scommon` together with `-Scli`. -/
theorem c7_validation_before_bind_witness :
    (∃ m, (startup true ⟨⟨none, none, none, some true, some true⟩, none, false⟩
        (.ok ()) (.ok ())).2 = .error m)
    ∧ ServeStage.socketBind ∉ (startup true ⟨⟨none, none, none, some true, some true⟩, none, false⟩
        (.ok ()) (.ok ())).1 :=
  c7_validation_before_bind true ⟨⟨none, none, none, some true, some true⟩, none, false⟩
    (.ok ()) (.ok ()) (.inl (by decide))

/-- C8 — the request-id counter starts at zero and advances by a wrapping
fetch-add, so while fewer than `2^64` requests have occurred the issued ids
are strictly increasing and pairwise distinct. -/
theorem c8_req_id_monotone (i j : Nat) (hij : i < j) (hj : j < U64_MOD) :
    reqId 0 = 0 ∧ reqId i < reqId j ∧ reqId i ≠ reqId j := by
  have hi : reqId i = i := by
    unfold reqId next_req_id
    rw [reqCounterState_eq]
    exact Nat.mod_eq_of_lt (lt_trans hij hj)
  have hjj : reqId j = j := by
    unfold reqId next_req_id
    rw [reqCounterState_eq]
    exact Nat.mod_eq_of_lt hj
  exact ⟨rfl, by omega, by omega⟩

/-- Witness for C8 at the first two requests. -/
theorem c8_req_id_monotone_witness :
    reqId 0 = 0 ∧ reqId 0 < reqId 1 ∧ reqId 0 ≠ reqId 1 :=
  c8_req_id_monotone 0 1 (by norm_num) (by norm_num [U64_MOD])

/-- C9 — a present but non-UTF-8 Host header makes normalization fail with
`HttpRequestUriInvalid` even when the request URI carries a usable authority
component; indeed with any Host header present the outcome is independent of
the URI's authority, which is consulted only when the header is absent. -/
theorem c9_invalid_host_header_rejected (req : ReqParts) (bytes : List Nat)
    (hb : req.hostHeader = some bytes) (hv : utf8Valid bytes = false) :
    normalizeUri req = .error .HttpRequestUriInvalid
    ∧ ∀ auth', normalizeUri { req with uri := { req.uri with authority := auth' } }
        = normalizeUri req := by
  constructor
  · simp [normalizeUri, hostOf, hb, hv, Except.bind]
  · intro auth'
    simp [normalizeUri, hostOf, hb]

/-- Witness for C9: Host header `[0xFF]` with a usable authority present. -/
theorem c9_invalid_host_header_rejected_witness :
    normalizeUri ⟨some [255], ⟨none, some ⟨[97]⟩, some [47]⟩⟩ = .error .HttpRequestUriInvalid
    ∧ ∀ auth', normalizeUri { (⟨some [255], ⟨none, some ⟨[97]⟩, some [47]⟩⟩ : ReqParts) with
        uri := { (⟨none, some ⟨[97]⟩, some [47]⟩ : UriParts) with authority := auth' } }
        = normalizeUri ⟨some [255], ⟨none, some ⟨[97]⟩, some [47]⟩⟩ :=
  c9_invalid_host_header_rejected ⟨some [255], ⟨none, some ⟨[97]⟩, some [47]⟩⟩ [255] rfl (by decide)

/-- C10 — `LogStream::write` emits exactly the nonempty maximal
newline-separated segments of its input, each preceded by the stream tag and
followed by a single newline; empty segments are suppressed, so an input
consisting only of newline bytes produces no output and blank guest lines
are dropped. -/
theorem c10_write_segments (pfx bytes : List Nat) :
    logStreamWrite pfx bytes
      = (((splitNl bytes).filter (fun l => !l.isEmpty)).map (fun l => pfx ++ l ++ [10])).flatten
    ∧ ((∀ b ∈ bytes, b = 10) → logStreamWrite pfx bytes = []) := by
  refine ⟨logStreamWrite_eq pfx bytes, fun h => ?_⟩
  rw [logStreamWrite_eq, splitNl_all_newlines bytes h]
  rfl

/-- Witness for C10 on an all-newline input. -/
theorem c10_write_segments_witness : logStreamWrite [112] [10, 10] = [] :=
  (c10_write_segments [112] [10, 10]).2 (by decide)

end WasmtimeServe
